import Mathlib

/-!
Verification of the OCR-based text-click coordinate pipeline of the
ios-interact-mcp repository.

The Python sources `ios_interact_mcp/types.py`, `ios_interact_mcp/ocr_controller.py`
and `ios_interact_mcp/ocr_controller_functional.py` are shallowly embedded below.
Python floats are modelled as exact rationals (ℚ); Python exceptions are modelled
with `Except`; results of external processes (osascript, screencapture, the OCR
engine, the click primitive) are inputs of the embedded functions.
-/

namespace IosInteract

/-- `types.py` `Point`: immutable 2D point. -/
structure Point where
  x : ℚ
  y : ℚ
deriving DecidableEq, Repr

/-- `types.py` `Rectangle`: immutable rectangle. -/
structure Rectangle where
  x : ℚ
  y : ℚ
  width : ℚ
  height : ℚ
deriving DecidableEq, Repr

/-- `Rectangle.center` property: `Point(x + width / 2, y + height / 2)`. -/
def Rectangle.center (r : Rectangle) : Point :=
  ⟨r.x + r.width / 2, r.y + r.height / 2⟩

/-- `types.py` `Window`: index, bounds, title. -/
structure Window where
  index : ℤ
  bounds : Rectangle
  title : String
deriving DecidableEq, Repr

/-! ### Python string primitives used by the embedded code -/

/-- Whitespace characters stripped by Python `str.strip()`. -/
def pySpace (c : Char) : Bool :=
  c = ' ' || c = '\t' || c = '\n' || c = '\x0d' || c = '\x0b' || c = '\x0c'

/-- Python `str.strip()` on the underlying character list. -/
def pyStripList (l : List Char) : List Char :=
  ((l.dropWhile pySpace).reverse.dropWhile pySpace).reverse

/-- Python `str.strip()`. -/
def pyStrip (s : String) : String :=
  ⟨pyStripList s.data⟩

/-- Does list `h` start with list `n`? (character-level prefix test) -/
def headMatch : List Char → List Char → Bool
  | [], _ => true
  | _ :: _, [] => false
  | a :: as, b :: bs => a == b && headMatch as bs

/-- Does list `n` occur as a contiguous sublist of `h`? -/
def subMatch (n : List Char) : List Char → Bool
  | [] => headMatch n []
  | b :: bs => headMatch n (b :: bs) || subMatch n bs

/-- Python `needle in hay` substring test. -/
def pyContains (hay needle : String) : Bool :=
  subMatch needle.data hay.data

/-- Python `str.lower()` (ASCII model). -/
def pyLower (s : String) : String :=
  ⟨s.data.map Char.toLower⟩

/-- Fuel-indexed worker for `str.split(sep)`: each step consumes at least one
character, so fuel equal to the input length is always sufficient. -/
def splitGo (sep : List Char) : Nat → List Char → List Char → List (List Char)
  | 0, acc, rest => [acc.reverse ++ rest]
  | Nat.succ f, acc, l =>
    match l with
    | [] => [acc.reverse]
    | c :: rest =>
      if headMatch sep (c :: rest) then
        acc.reverse :: splitGo sep f [] (List.drop sep.length (c :: rest))
      else
        splitGo sep f (c :: acc) rest

/-- Python `s.split(sep)` for a non-empty separator. -/
def pySplit (s sep : String) : List String :=
  (splitGo sep.data s.data.length [] s.data).map (fun l => ⟨l⟩)

/-- Python `int(q)` on a float: truncation toward zero. -/
def pyInt (q : ℚ) : ℤ :=
  if q < 0 then -(Int.floor (-q)) else Int.floor q

/-! ### `ocr_controller_functional.py` pure functions -/

/-- Error raised by the embedded `transform_coordinates`.  `zeroDivision`
models Python's `ZeroDivisionError`; `invalidGeometry` models the
`InvalidGeometryError` that the specification asks for (the source never
raises it). -/
inductive TransformErr
  | zeroDivision
  | invalidGeometry
deriving DecidableEq, Repr

/-- `transform_coordinates(point, from_bounds, to_bounds)`: relative position in
`from_bounds` mapped onto `to_bounds`.  The source divides by
`from_bounds.width` and then `from_bounds.height` with no guard, so a zero
dimension raises `ZeroDivisionError`. -/
def transform_coordinates (point : Point) (from_bounds to_bounds : Rectangle) :
    Except TransformErr Point :=
  if from_bounds.width = 0 then .error .zeroDivision
  else if from_bounds.height = 0 then .error .zeroDivision
  else
    let rel_x := (point.x - from_bounds.x) / from_bounds.width
    let rel_y := (point.y - from_bounds.y) / from_bounds.height
    .ok ⟨to_bounds.x + rel_x * to_bounds.width, to_bounds.y + rel_y * to_bounds.height⟩

/-- `vision_to_pil_coordinates(vision_point, image_height)`: Vision uses a
bottom-left origin, PIL a top-left one; `y` is flipped, `x` unchanged. -/
def vision_to_pil_coordinates (vision_point : Point) (image_height : ℚ) : Point :=
  ⟨vision_point.x, image_height - vision_point.y⟩

/-- `parse_window_data` line worker: one line of AppleScript output, using
`parseI`/`parseF` for Python `int(...)`/`float(...)` (a parse failure models
the `ValueError` caught by the source's `try`/`except`). -/
def lineToWindow (parseI : String → Option ℤ) (parseF : String → Option ℚ)
    (line : String) : Option Window :=
  if (pyStrip line).data = [] then none
  else
    let parts := pySplit line ", "
    if parts.length < 5 then none
    else
      match parseI (parts.getD 0 ""), parseF (parts.getD 1 ""), parseF (parts.getD 2 ""),
          parseF (parts.getD 3 ""), parseF (parts.getD 4 "") with
      | some idx, some px, some py, some pw, some ph =>
        some ⟨idx, ⟨px, py, pw, ph⟩, parts.getD 5 ""⟩
      | _, _, _, _, _ => none

/-- `parse_window_data(output)`: strip the output, split into lines, skip blank
or malformed lines, build a `Window` from each line that parses. -/
def parse_window_data (parseI : String → Option ℤ) (parseF : String → Option ℚ)
    (output : String) : List Window :=
  (pySplit (pyStrip output) "\n").filterMap (lineToWindow parseI parseF)

/-! ### `ocr_controller.py` `OCRTextFinder.find_text_elements` -/

/-- One OCR annotation as returned by the OCR engine:
`(text, confidence, [x, y, width, height])` with normalized bounds. -/
structure Ann where
  text : String
  confidence : ℚ
  nx : ℚ
  ny : ℚ
  nw : ℚ
  nh : ℚ
deriving DecidableEq, Repr

/-- One element of the list built by `find_text_elements`: the dict with pixel
coordinates and precomputed center. -/
structure Element where
  text : String
  x : ℚ
  y : ℚ
  width : ℚ
  height : ℚ
  center_x : ℚ
  center_y : ℚ
  confidence : ℚ
deriving DecidableEq, Repr

/-- The pixel-space element `find_text_elements` builds for one annotation:
`x = x_norm * img_width`, `y = (1 - y_norm - height_norm) * img_height`,
`width = width_norm * img_width`, `height = height_norm * img_height`,
centers `x + width / 2` and `y + height / 2`. -/
def elementOf (a : Ann) (img_width img_height : ℚ) : Element :=
  let x := a.nx * img_width
  let y := (1 - a.ny - a.nh) * img_height
  let width := a.nw * img_width
  let height := a.nh * img_height
  ⟨a.text, x, y, width, height, x + width / 2, y + height / 2, a.confidence⟩

/-- The filter condition of `find_text_elements`:
`search_text is None or search_text.lower() in text.lower()`. -/
def keepMatch (search_text : Option String) (text : String) : Bool :=
  match search_text with
  | none => true
  | some s => pyContains (pyLower text) (pyLower s)

/-- `OCRTextFinder.find_text_elements`: the per-annotation loop, converting the
normalized bounds to pixel space and appending the element when the filter
condition holds. -/
def find_text_elements (anns : List Ann) (img_width img_height : ℚ)
    (search_text : Option String) : List Element :=
  match anns with
  | [] => []
  | a :: rest =>
    let element := elementOf a img_width img_height
    if keepMatch search_text a.text then
      element :: find_text_elements rest img_width img_height search_text
    else
      find_text_elements rest img_width img_height search_text

/-! ### Fullscreen state controller -/

/-- Errors (`RuntimeError`s) of the fullscreen controller functions. -/
inductive FsErr
  | readFailed (msg : String)
  | verifyFailed (msg : String)
  | transitionFailed
  | alreadyFullscreen
  | alreadyWindowed
  | menuNotFound (state : String)
  | toggleFailed (msg : String)
deriving DecidableEq, Repr

/-- `ocr_controller_functional.ensure_fullscreen`: reads the menu (`check1` is
the stdout of `check_fullscreen_menu.applescript`, or the error text when the
call raised); if `"Exit Full Screen"` occurs we are already fullscreen and it
returns `False`; otherwise it toggles, re-reads the menu (`check2`) and
verifies. -/
def ensure_fullscreen (check1 : Except String String) (toggle : Except String Unit)
    (check2 : Except String String) : Except FsErr Bool :=
  match check1 with
  | .error e => .error (.readFailed e)
  | .ok out =>
    if pyContains out "Exit Full Screen" then
      .ok false
    else
      match toggle with
      | .error e => .error (.toggleFailed e)
      | .ok _ =>
        match check2 with
        | .error e => .error (.verifyFailed e)
        | .ok out2 =>
          if pyContains out2 "Exit Full Screen" then .ok true
          else .error .transitionFailed

/-- `ocr_controller.SimulatorWindowManager.make_window_fullscreen`: the checked
menu state (stdout stripped) decides: `"exit"` means already fullscreen and
raises; `"enter"` toggles via keystroke and verifies; anything else raises
menu-not-found. -/
def make_window_fullscreen (check : Except String String) (toggle : Except String Unit)
    (verifyFullscreen : Bool) : Except FsErr Bool :=
  match check with
  | .error e => .error (.readFailed e)
  | .ok out =>
    let menu_state := pyStrip out
    if menu_state = "exit" then .error .alreadyFullscreen
    else if menu_state = "enter" then
      match toggle with
      | .error e => .error (.toggleFailed e)
      | .ok _ => if verifyFullscreen then .ok true else .error .transitionFailed
    else .error (.menuNotFound menu_state)

/-! ### `ocr_controller.py` click resolver -/

/-- Python list indexing `l[i]` including negative indices; `none` models
`IndexError`. -/
def pyIdx {α : Type} (l : List α) (i : ℤ) : Option α :=
  if 0 ≤ i then l.get? i.toNat
  else if 0 ≤ (l.length : ℤ) + i then l.get? ((l.length : ℤ) + i).toNat
  else none

/-- `CoordinateTransformer.screenshot_to_screen_coordinates`: in fullscreen mode
screenshot coordinates are screen coordinates (`int(...)` truncation); in
windowed mode the window position is added, and a missing `window_info` raises
`ValueError`. -/
def screenshot_to_screen_coordinates (screenshot_x screenshot_y : ℚ)
    (window_position : Option (ℚ × ℚ)) (is_fullscreen : Bool) :
    Except String (ℤ × ℤ) :=
  if is_fullscreen then .ok (pyInt screenshot_x, pyInt screenshot_y)
  else
    match window_position with
    | none => .error "window_info required for non-fullscreen mode"
    | some wp => .ok (pyInt (wp.1 + screenshot_x), pyInt (wp.2 + screenshot_y))

/-- Exceptions raised by `SimulatorInteractionController.click_text`. -/
inductive ClickErr
  | captureFailed
  | ocrRaised (msg : String)
  | textNotFound (text : String)
  | occurrenceOutOfRange (requested : ℤ) (found : ℕ)
  | indexError
  | coordRaised (msg : String)
  | clickFailed (text : String) (x y : ℤ)
deriving DecidableEq, Repr

/-- Externally determined outcomes of the side-effecting steps of
`click_text`: whether `screencapture` produced the file, what the OCR engine
returned (or the exception it raised), the captured image's dimensions, and
whether the osascript click primitive exited with code 0. -/
structure ClickEnv where
  captureOk : Bool
  ocr : Except String (List Ann)
  imgW : ℚ
  imgH : ℚ
  clickOk : Bool
deriving Repr

/-- Observable state left behind by `click_text`: whether the temporary
screenshot file still exists, whether the simulator is still in fullscreen
mode, and the screen point the click primitive was invoked at (if any). -/
structure ClickState where
  fileExists : Bool
  fullscreen : Bool
  clicked : Option (ℤ × ℤ)
deriving DecidableEq, Repr

/-- `SimulatorInteractionController.click_text(text, occurrence)`, modelled as a
pure function of the environment.  The capture step first enters fullscreen and
creates a temporary file; if `screencapture` fails the capture helper returns
`None` and `click_text` raises before its `try` block, leaving the temp file
on disk and the simulator fullscreen.  Inside the `try`, the `finally` clause
always deletes the file, but `exit_fullscreen` is only called on the
text-not-found, occurrence-out-of-range and after-click paths (modelled here as
succeeding); an OCR exception or an `IndexError` propagates without restoring
windowed mode. -/
def click_text (env : ClickEnv) (text : String) (occurrence : ℤ) :
    Except ClickErr Unit × ClickState :=
  if env.captureOk = false then
    (.error .captureFailed, ⟨true, true, none⟩)
  else
    match env.ocr with
    | .error msg => (.error (.ocrRaised msg), ⟨false, true, none⟩)
    | .ok anns =>
      let elements := find_text_elements anns env.imgW env.imgH (some text)
      if elements = [] then
        (.error (.textNotFound text), ⟨false, false, none⟩)
      else if (elements.length : ℤ) < occurrence then
        (.error (.occurrenceOutOfRange occurrence elements.length), ⟨false, false, none⟩)
      else
        match pyIdx elements (occurrence - 1) with
        | none => (.error .indexError, ⟨false, true, none⟩)
        | some target =>
          match screenshot_to_screen_coordinates target.center_x target.center_y
              none true with
          | .error m => (.error (.coordRaised m), ⟨false, true, none⟩)
          | .ok (screen_x, screen_y) =>
            if env.clickOk then
              (.ok (), ⟨false, false, some (screen_x, screen_y)⟩)
            else
              (.error (.clickFailed target.text screen_x screen_y),
                ⟨false, false, some (screen_x, screen_y)⟩)

/-! ### `find_text_in_simulator` report formatting -/

/-- Wrap a string in single-quote characters (code point 39), as the Python
f-strings of the report do. -/
def quoteS (s : String) : String :=
  String.singleton (Char.ofNat 39) ++ s ++ String.singleton (Char.ofNat 39)

/-- Python `round`-half-to-even to an integer, as used by `f"{x:.0f}"`. -/
def roundHalfEven (q : ℚ) : ℤ :=
  if q - q.floor < 1 / 2 then q.floor
  else if 1 / 2 < q - q.floor then q.floor + 1
  else if q.floor % 2 = 0 then q.floor else q.floor + 1

/-- Rendering of `f"{q:.0f}"`. -/
def fmtDot0 (q : ℚ) : String :=
  toString (roundHalfEven q)

/-- One report line `f"{i}. '{text}' at ({center_x:.0f}, {center_y:.0f})"`. -/
def fmtLine (i : ℕ) (e : Element) : String :=
  toString i ++ ". " ++ quoteS e.text ++ " at (" ++ fmtDot0 e.center_x ++ ", "
    ++ fmtDot0 e.center_y ++ ")"

/-- The `enumerate(elements, 1)` loop of `find_text_in_simulator`, starting at
index `i`. -/
def fmtLines (i : ℕ) : List Element → List String
  | [] => []
  | e :: rest => fmtLine i e :: fmtLines (i + 1) rest

/-- The header line of the report. -/
def reportHeader (n : ℕ) (search_text : Option String) : String :=
  match search_text with
  | some s => "Found " ++ toString n ++ " occurrence(s) of " ++ quoteS s ++ ":"
  | none => "Found " ++ toString n ++ " text element(s):"

/-- The result-formatting tail of
`SimulatorInteractionController.find_text_in_simulator`, as a function of the
located elements: not-found messages for the empty list, otherwise a header
followed by one numbered line per element, joined with newlines. -/
def find_text_report (elements : List Element) (search_text : Option String) :
    String :=
  if elements = [] then
    match search_text with
    | some s => "Text " ++ quoteS s ++ " not found in simulator"
    | none => "No text found in simulator"
  else
    String.intercalate "\n"
      (reportHeader elements.length search_text :: fmtLines 1 elements)

/-! ## Claims -/

/-- C7: for every `imageHeight > 0` and every point, the Vision-to-top-left
conversion `y' = imageHeight - y` of `vision_to_pil_coordinates` composed with
its inverse (the same map) returns the original point exactly, hence within
the 1e-4 tolerance. -/
theorem c7_vision_roundtrip (image_height : ℚ) (p : Point)
    (h : 0 < image_height) :
    vision_to_pil_coordinates (vision_to_pil_coordinates p image_height)
        image_height = p ∧
    |(vision_to_pil_coordinates (vision_to_pil_coordinates p image_height)
        image_height).y - p.y| ≤ 1 / 10000 := by
  have hrt : vision_to_pil_coordinates (vision_to_pil_coordinates p image_height)
      image_height = p := by
    cases p with
    | mk px py => simp [vision_to_pil_coordinates]
  refine ⟨hrt, ?_⟩
  rw [hrt]
  simp

/-- Witness for C7 at `imageHeight = 844`, `p = (1, 2)`. -/
theorem c7_vision_roundtrip_witness :
    vision_to_pil_coordinates (vision_to_pil_coordinates ⟨1, 2⟩ 844) 844
        = (⟨1, 2⟩ : Point) ∧
    |(vision_to_pil_coordinates (vision_to_pil_coordinates ⟨1, 2⟩ 844) 844).y
        - (2 : ℚ)| ≤ 1 / 10000 :=
  c7_vision_roundtrip 844 ⟨1, 2⟩ (by norm_num)

/-- C5 counterexample: with a zero-width source rectangle the embedded
`transform_coordinates` raises `ZeroDivisionError` (the unguarded Python
division), not the `InvalidGeometryError` the claim names. -/
theorem c5_zero_division_counterexample :
    transform_coordinates ⟨1, 1⟩ ⟨0, 0, 0, 10⟩ ⟨0, 0, 5, 5⟩
        = .error TransformErr.zeroDivision ∧
    TransformErr.zeroDivision ≠ TransformErr.invalidGeometry := by
  exact ⟨rfl, by decide⟩

/-- C5 (amended): for every point and rectangles, a zero width or zero height
of the source rectangle makes `transform_coordinates` fail with
`ZeroDivisionError` rather than return a NaN/Inf point. -/
theorem c5_zero_dimension_raises (point : Point) (from_bounds to_bounds : Rectangle)
    (h : from_bounds.width = 0 ∨ from_bounds.height = 0) :
    transform_coordinates point from_bounds to_bounds
        = .error TransformErr.zeroDivision := by
  rcases h with h | h
  · simp [transform_coordinates, h]
  · by_cases hw : from_bounds.width = 0 <;> simp [transform_coordinates, hw, h]

/-- Witness for C5's amended theorem at a zero-height source rectangle. -/
theorem c5_zero_dimension_raises_witness :
    ((0 : ℚ) = 0 ∨ (Rectangle.mk 0 0 4 0).height = 0) ∧
    transform_coordinates ⟨2, 3⟩ ⟨0, 0, 4, 0⟩ ⟨1, 1, 5, 5⟩
        = .error TransformErr.zeroDivision :=
  ⟨Or.inl rfl,
    c5_zero_dimension_raises ⟨2, 3⟩ ⟨0, 0, 4, 0⟩ ⟨1, 1, 5, 5⟩ (Or.inr rfl)⟩

/-- C6: the idempotent `ensure_fullscreen`, when the menu already shows
"Exit Full Screen", returns `False` without error, while the raising
`make_window_fullscreen`, when the checked menu state is `"exit"`, raises the
already-in-fullscreen `RuntimeError`. -/
theorem c6_fullscreen_primitives (out out2 : String)
    (toggle toggle2 : Except String Unit) (check2 : Except String String)
    (verify : Bool)
    (h1 : pyContains out "Exit Full Screen" = true)
    (h2 : pyStrip out2 = "exit") :
    ensure_fullscreen (.ok out) toggle check2 = .ok false ∧
    make_window_fullscreen (.ok out2) toggle2 verify
        = .error FsErr.alreadyFullscreen := by
  constructor
  · simp [ensure_fullscreen, h1]
  · simp [make_window_fullscreen, h2]

/-- Witness for C6 at the literal menu outputs. -/
theorem c6_fullscreen_primitives_witness :
    pyContains "Exit Full Screen" "Exit Full Screen" = true ∧
    pyStrip " exit\n" = "exit" ∧
    ensure_fullscreen (.ok "Exit Full Screen") (.ok ()) (.ok "") = .ok false ∧
    make_window_fullscreen (.ok " exit\n") (.ok ()) true
        = .error FsErr.alreadyFullscreen := by
  refine ⟨by decide, by decide, ?_⟩
  exact c6_fullscreen_primitives "Exit Full Screen" " exit\n" (.ok ()) (.ok ())
    (.ok "") true (by decide) (by decide)

/-- C2 (code bug evaluation): when the fullscreen capture succeeds and the OCR
engine then raises, `click_text` deletes the temporary screenshot file (the
`finally` clause) but never calls `exit_fullscreen`, so the simulator is left
in fullscreen mode when the error propagates. -/
theorem c2_ocr_failure_skips_windowed_restore :
    click_text ⟨true, .error "OCR engine failure", 390, 844, true⟩ "General" 1
        = (.error (.ocrRaised "OCR engine failure"), ⟨false, true, none⟩) ∧
    (click_text ⟨true, .error "OCR engine failure", 390, 844, true⟩
        "General" 1).2.fullscreen = true := by
  exact ⟨rfl, rfl⟩

/-- Every element produced by `find_text_elements` is the pixel conversion of
one of the input annotations. -/
theorem mem_find_text_elements {anns : List Ann} {W H : ℚ} {s : Option String}
    {e : Element} (he : e ∈ find_text_elements anns W H s) :
    ∃ a ∈ anns, e = elementOf a W H := by
  induction anns with
  | nil => simp [find_text_elements] at he
  | cons a rest ih =>
    simp only [find_text_elements] at he
    split at he
    · rcases List.mem_cons.mp he with h | h
      · exact ⟨a, List.mem_cons_self a rest, h⟩
      · obtain ⟨b, hb, hbe⟩ := ih h
        exact ⟨b, List.mem_cons_of_mem a hb, hbe⟩
    · obtain ⟨b, hb, hbe⟩ := ih he
      exact ⟨b, List.mem_cons_of_mem a hb, hbe⟩

/-- Concrete evaluation of the spec's fixture scenario: a 390x844 image with
"General" at normalized bounds (0.1, 0.8, 0.3, 0.05) and "About" at
(0.1, 0.5, 0.2, 0.05), searched for "General". -/
theorem find_general_concrete :
    find_text_elements
        [⟨"General", 1, 1/10, 4/5, 3/10, 1/20⟩, ⟨"About", 1, 1/10, 1/2, 1/5, 1/20⟩]
        390 844 (some "General")
      = [⟨"General", 39, 633/5, 117, 211/5, 195/2, 1477/10, 1⟩] := by
  have hg : keepMatch (some "General") "General" = true := by decide
  have ha : keepMatch (some "General") "About" = false := by decide
  simp only [find_text_elements, hg, ha, if_true, if_false, elementOf]
  norm_num

/-- C1: every element kept by `find_text_elements` carries the pixel bounds
`x = normX * W`, `y = (1 - normY - normHeight) * H`, `width = normWidth * W`,
`height = normHeight * H` of one input annotation; on a 390x844 image the
fixture scenario ("General" at normalized bounds (0.1, 0.8, 0.3, 0.05),
"About" at (0.1, 0.5, 0.2, 0.05), searching "General") yields exactly one
match with pixel bounds (39, 126.6, 117, 42.2). -/
theorem c1_normalized_bounds_to_pixels (img_width img_height : ℚ)
    (hW : 0 < img_width) (hH : 0 < img_height)
    (anns : List Ann) (search_text : Option String) (e : Element)
    (he : e ∈ find_text_elements anns img_width img_height search_text) :
    (∃ a ∈ anns, e.x = a.nx * img_width ∧
        e.y = (1 - a.ny - a.nh) * img_height ∧
        e.width = a.nw * img_width ∧ e.height = a.nh * img_height) ∧
    find_text_elements
        [⟨"General", 1, 1/10, 4/5, 3/10, 1/20⟩, ⟨"About", 1, 1/10, 1/2, 1/5, 1/20⟩]
        390 844 (some "General")
      = [⟨"General", 39, 633/5, 117, 211/5, 195/2, 1477/10, 1⟩] := by
  constructor
  · obtain ⟨a, ha, rfl⟩ := mem_find_text_elements he
    exact ⟨a, ha, rfl, rfl, rfl, rfl⟩
  · exact find_general_concrete

/-- Witness for C1 at the fixture scenario itself. -/
theorem c1_normalized_bounds_to_pixels_witness :
    (0 : ℚ) < 390 ∧ (0 : ℚ) < 844 ∧
    (⟨"General", 39, 633/5, 117, 211/5, 195/2, 1477/10, 1⟩ : Element) ∈
      find_text_elements
        [⟨"General", 1, 1/10, 4/5, 3/10, 1/20⟩, ⟨"About", 1, 1/10, 1/2, 1/5, 1/20⟩]
        390 844 (some "General") ∧
    (∃ a ∈ ([⟨"General", 1, 1/10, 4/5, 3/10, 1/20⟩,
        ⟨"About", 1, 1/10, 1/2, 1/5, 1/20⟩] : List Ann),
      (⟨"General", 39, 633/5, 117, 211/5, 195/2, 1477/10, 1⟩ : Element).x
          = a.nx * 390 ∧
      (⟨"General", 39, 633/5, 117, 211/5, 195/2, 1477/10, 1⟩ : Element).y
          = (1 - a.ny - a.nh) * 844 ∧
      (⟨"General", 39, 633/5, 117, 211/5, 195/2, 1477/10, 1⟩ : Element).width
          = a.nw * 390 ∧
      (⟨"General", 39, 633/5, 117, 211/5, 195/2, 1477/10, 1⟩ : Element).height
          = a.nh * 844) := by
  have hmem : (⟨"General", 39, 633/5, 117, 211/5, 195/2, 1477/10, 1⟩ : Element) ∈
      find_text_elements
        [⟨"General", 1, 1/10, 4/5, 3/10, 1/20⟩, ⟨"About", 1, 1/10, 1/2, 1/5, 1/20⟩]
        390 844 (some "General") := by
    rw [find_general_concrete]; exact List.mem_singleton.mpr rfl
  refine ⟨by norm_num, by norm_num, hmem, ?_⟩
  exact (c1_normalized_bounds_to_pixels 390 844 (by norm_num) (by norm_num)
    _ (some "General") _ hmem).1

/-- C8: with no search string `find_text_elements` keeps every annotation (in
order); with a search string it keeps, in the engine's original order, exactly
the converted annotations whose text contains the search string
case-insensitively. -/
theorem c8_filter_semantics (anns : List Ann) (img_width img_height : ℚ)
    (s : String) :
    find_text_elements anns img_width img_height none
        = anns.map (fun a => elementOf a img_width img_height) ∧
    find_text_elements anns img_width img_height (some s)
        = (anns.map (fun a => elementOf a img_width img_height)).filter
            (fun e => pyContains (pyLower e.text) (pyLower s)) := by
  constructor
  · induction anns with
    | nil => rfl
    | cons a rest ih => simp [find_text_elements, keepMatch, ih]
  · induction anns with
    | nil => rfl
    | cons a rest ih =>
      simp only [find_text_elements, keepMatch, List.map, List.filter_cons]
      have htext : (elementOf a img_width img_height).text = a.text := rfl
      rw [htext, ih]

/-- Characterization of a `click_text` run that reaches the click step: with a
successful capture, a successful OCR whose matches contain the requested
occurrence, the click primitive is invoked at the truncated center of the
selected element, the temp file is deleted and windowed mode restored. -/
theorem click_text_run (env : ClickEnv) (text : String) (occurrence : ℤ)
    (anns : List Ann) (target : Element)
    (hcap : env.captureOk = true) (hocr : env.ocr = .ok anns)
    (hocc : 1 ≤ occurrence)
    (hlen : occurrence ≤
      ((find_text_elements anns env.imgW env.imgH (some text)).length : ℤ))
    (htarget : (find_text_elements anns env.imgW env.imgH (some text)).get?
      (occurrence - 1).toNat = some target) :
    click_text env text occurrence =
      ((if env.clickOk then .ok ()
        else .error (.clickFailed target.text (pyInt target.center_x)
          (pyInt target.center_y))),
       ⟨false, false, some (pyInt target.center_x, pyInt target.center_y)⟩) := by
  have hne : find_text_elements anns env.imgW env.imgH (some text) ≠ [] := by
    intro h0
    rw [h0] at hlen
    simp at hlen
    omega
  have hnlt :
      ¬ ((find_text_elements anns env.imgW env.imgH (some text)).length : ℤ)
        < occurrence := not_lt.mpr hlen
  have hidx : pyIdx (find_text_elements anns env.imgW env.imgH (some text))
      (occurrence - 1) = some target := by
    have h0 : (0 : ℤ) ≤ occurrence - 1 := by omega
    rw [pyIdx, if_pos h0]
    exact htarget
  simp only [click_text, hcap, hocr, if_neg hne, if_neg hnlt, hidx,
    screenshot_to_screen_coordinates, if_true]
  rcases Bool.eq_false_or_eq_true env.clickOk with hb | hb <;> simp [hb]

/-- C3 (amended): with a successful capture and OCR, a valid occurrence `n`
selects exactly the `n`-th match (1-based) and the click point is that match's
bounds center truncated to integer coordinates by Python `int(...)`. -/
theorem c3_occurrence_selection (env : ClickEnv) (text : String)
    (occurrence : ℤ) (anns : List Ann) (target : Element)
    (hcap : env.captureOk = true) (hocr : env.ocr = .ok anns)
    (hocc : 1 ≤ occurrence)
    (hlen : occurrence ≤
      ((find_text_elements anns env.imgW env.imgH (some text)).length : ℤ))
    (htarget : (find_text_elements anns env.imgW env.imgH (some text)).get?
      (occurrence - 1).toNat = some target) :
    (click_text env text occurrence).2.clicked
      = some (pyInt target.center_x, pyInt target.center_y) := by
  rw [click_text_run env text occurrence anns target hcap hocr hocc hlen htarget]

/-- The three synthetic "Settings" annotations of the C3 witness scenario, on a
100x100 image. -/
def settingsAnns : List Ann :=
  [⟨"Settings", 1, 0, 0, 1/10, 1/10⟩,
   ⟨"Settings", 1, 1/10, 1/10, 1/10, 1/10⟩,
   ⟨"Settings", 1, 1/2, 1/2, 1/10, 1/10⟩]

/-- Concrete evaluation of the C3 witness scenario's matches. -/
theorem find_settings_concrete :
    find_text_elements settingsAnns 100 100 (some "Settings")
      = [⟨"Settings", 0, 90, 10, 10, 5, 95, 1⟩,
         ⟨"Settings", 10, 80, 10, 10, 15, 85, 1⟩,
         ⟨"Settings", 50, 40, 10, 10, 55, 45, 1⟩] := by
  have hs : keepMatch (some "Settings") "Settings" = true := by decide
  simp only [settingsAnns, find_text_elements, hs, if_true, elementOf]
  norm_num

/-- Witness for C3's amended theorem: three matches with integer centers;
occurrence 2 clicks exactly the second match's center (15, 85), not the first
(5, 95) or third (55, 45). -/
theorem c3_occurrence_selection_witness :
    (1 : ℤ) ≤ 2 ∧
    (2 : ℤ) ≤ ((find_text_elements settingsAnns 100 100 (some "Settings")).length : ℤ) ∧
    (find_text_elements settingsAnns 100 100 (some "Settings")).get?
        ((2 : ℤ) - 1).toNat = some ⟨"Settings", 10, 80, 10, 10, 15, 85, 1⟩ ∧
    (click_text ⟨true, .ok settingsAnns, 100, 100, true⟩ "Settings" 2).2.clicked
        = some (pyInt (15 : ℚ), pyInt (85 : ℚ)) ∧
    pyInt (15 : ℚ) = 15 ∧ pyInt (85 : ℚ) = 85 := by
  have hlen : (2 : ℤ) ≤
      ((find_text_elements settingsAnns 100 100 (some "Settings")).length : ℤ) := by
    rw [find_settings_concrete]; norm_num
  have htarget : (find_text_elements settingsAnns 100 100 (some "Settings")).get?
      ((2 : ℤ) - 1).toNat = some ⟨"Settings", 10, 80, 10, 10, 15, 85, 1⟩ := by
    rw [find_settings_concrete]; rfl
  refine ⟨by norm_num, hlen, htarget, ?_, by norm_num [pyInt], by norm_num [pyInt]⟩
  exact c3_occurrence_selection ⟨true, .ok settingsAnns, 100, 100, true⟩
    "Settings" 2 settingsAnns ⟨"Settings", 10, 80, 10, 10, 15, 85, 1⟩
    rfl rfl (by norm_num) hlen htarget

/-- The three "Settings" annotations whose second match has a fractional
center, on a 100x100 image. -/
def settingsFracAnns : List Ann :=
  [⟨"Settings", 1, 0, 0, 1/10, 1/10⟩,
   ⟨"Settings", 1, 1/10, 1/20, 1/20, 1/20⟩,
   ⟨"Settings", 1, 1/2, 1/2, 1/10, 1/10⟩]

/-- Concrete evaluation of the C3 counterexample scenario's matches. -/
theorem find_settings_frac_concrete :
    find_text_elements settingsFracAnns 100 100 (some "Settings")
      = [⟨"Settings", 0, 90, 10, 10, 5, 95, 1⟩,
         ⟨"Settings", 10, 90, 5, 5, 25/2, 185/2, 1⟩,
         ⟨"Settings", 50, 40, 10, 10, 55, 45, 1⟩] := by
  have hs : keepMatch (some "Settings") "Settings" = true := by decide
  simp only [settingsFracAnns, find_text_elements, hs, if_true, elementOf]
  norm_num

/-- C3 counterexample: with 3 matches whose second match has center
(12.5, 92.5), `clickText("Settings", occurrence=2)` issues the click at
(12, 92) — the truncated point — which is not the match's bounds center. -/
theorem c3_click_point_truncation_counterexample :
    (click_text ⟨true, .ok settingsFracAnns, 100, 100, true⟩
        "Settings" 2).2.clicked = some (12, 92) ∧
    (find_text_elements settingsFracAnns 100 100 (some "Settings")).get? 1
        = some ⟨"Settings", 10, 90, 5, 5, 25/2, 185/2, 1⟩ ∧
    ¬ (((12 : ℚ), (92 : ℚ)) = ((25 : ℚ)/2, (185 : ℚ)/2)) := by
  have htarget : (find_text_elements settingsFracAnns 100 100 (some "Settings")).get?
      ((2 : ℤ) - 1).toNat = some ⟨"Settings", 10, 90, 5, 5, 25/2, 185/2, 1⟩ := by
    rw [find_settings_frac_concrete]; rfl
  have hrun := click_text_run ⟨true, .ok settingsFracAnns, 100, 100, true⟩
    "Settings" 2 settingsFracAnns ⟨"Settings", 10, 90, 5, 5, 25/2, 185/2, 1⟩
    rfl rfl (by norm_num)
    (by rw [find_settings_frac_concrete]; norm_num) htarget
  refine ⟨?_, htarget, by norm_num⟩
  rw [hrun]
  have h1 : pyInt ((25 : ℚ)/2) = 12 := by
    norm_num [pyInt]
  have h2 : pyInt ((185 : ℚ)/2) = 92 := by
    norm_num [pyInt]
  simp [h1, h2]

/-- C4 (amended): with a successful capture and OCR finding at least one match,
a requested occurrence larger than the match count makes `click_text` fail
with the out-of-range `ValueError` carrying the requested occurrence and the
match count; the click primitive is never invoked, the temp file is deleted
and windowed mode restored. -/
theorem c4_occurrence_out_of_range (env : ClickEnv) (text : String)
    (occurrence : ℤ) (anns : List Ann)
    (hcap : env.captureOk = true) (hocr : env.ocr = .ok anns)
    (hne : find_text_elements anns env.imgW env.imgH (some text) ≠ [])
    (hgt : ((find_text_elements anns env.imgW env.imgH (some text)).length : ℤ)
      < occurrence) :
    click_text env text occurrence =
      (.error (.occurrenceOutOfRange occurrence
        (find_text_elements anns env.imgW env.imgH (some text)).length),
       ⟨false, false, none⟩) := by
  simp only [click_text, hcap, hocr, if_neg hne, if_pos hgt]
  simp

/-- The two "X" annotations of the C4 witness scenario. -/
def xAnns : List Ann :=
  [⟨"X", 1, 0, 0, 1/10, 1/10⟩, ⟨"OK X", 1, 1/2, 1/2, 1/10, 1/10⟩]

/-- Witness for C4's amended theorem: 2 matches, occurrence 5. -/
theorem c4_occurrence_out_of_range_witness :
    find_text_elements xAnns 100 100 (some "X") ≠ [] ∧
    ((find_text_elements xAnns 100 100 (some "X")).length : ℤ) < 5 ∧
    click_text ⟨true, .ok xAnns, 100, 100, true⟩ "X" 5 =
      (.error (.occurrenceOutOfRange 5
        (find_text_elements xAnns 100 100 (some "X")).length),
       ⟨false, false, none⟩) := by
  have h1 : keepMatch (some "X") "X" = true := by decide
  have h2 : keepMatch (some "X") "OK X" = true := by decide
  have hlen : (find_text_elements xAnns 100 100 (some "X")).length = 2 := by
    simp [xAnns, find_text_elements, h1, h2]
  have hne : find_text_elements xAnns 100 100 (some "X") ≠ [] := by
    intro h0
    rw [h0] at hlen
    simp at hlen
  have hgt : ((find_text_elements xAnns 100 100 (some "X")).length : ℤ) < 5 := by
    rw [hlen]; norm_num
  exact ⟨hne, hgt, c4_occurrence_out_of_range ⟨true, .ok xAnns, 100, 100, true⟩
    "X" 5 xAnns rfl rfl hne hgt⟩

/-- C4 counterexample: with zero matches for "X", an out-of-bounds occurrence
makes `click_text` raise the text-not-found error, not the out-of-range error
carrying the requested occurrence and the match count. -/
theorem c4_zero_matches_counterexample :
    click_text ⟨true, .ok [⟨"Y", 1, 0, 0, 1/10, 1/10⟩], 100, 100, true⟩ "X" 5
      = (.error (.textNotFound "X"), ⟨false, false, none⟩) ∧
    ((find_text_elements [⟨"Y", 1, 0, 0, 1/10, 1/10⟩] 100 100
        (some "X")).length : ℤ) < 5 ∧
    ClickErr.textNotFound "X" ≠ ClickErr.occurrenceOutOfRange 5 0 := by
  have hk : keepMatch (some "X") "Y" = false := by decide
  have hempty : find_text_elements [⟨"Y", 1, 0, 0, 1/10, 1/10⟩] 100 100
      (some "X") = [] := by
    simp [find_text_elements, hk]
  refine ⟨?_, by rw [hempty]; norm_num, by decide⟩
  simp only [click_text, hempty]
  simp

/-- `fmtLines` produces one line per element. -/
theorem fmtLines_length (k : ℕ) (es : List Element) :
    (fmtLines k es).length = es.length := by
  induction es generalizing k with
  | nil => rfl
  | cons e rest ih => simp [fmtLines, ih]

/-- The `i`-th line of the enumerate loop started at `k` formats element `i`
with index `k + i`. -/
theorem fmtLines_get? (k i : ℕ) (es : List Element) :
    (fmtLines k es).get? i = (es.get? i).map (fun e => fmtLine (k + i) e) := by
  induction es generalizing k i with
  | nil => simp [fmtLines]
  | cons e rest ih =>
    cases i with
    | zero => simp [fmtLines]
    | succ n =>
      simp only [fmtLines, List.get?_cons_succ]
      rw [ih (k + 1) n]
      have h : k + 1 + n = k + (n + 1) := by omega
      rw [h]

/-- C9: for a non-empty list of located matches, the find-text report is the
header followed by one line per match, and line `i` (0-based position) is
`"{i+1}. '{text}' at ({center_x:.0f}, {center_y:.0f})"` — 1-based index and
the match's center point. -/
theorem c9_report_format (elements : List Element) (search_text : Option String)
    (hne : elements ≠ []) :
    find_text_report elements search_text
      = String.intercalate "\n"
          (reportHeader elements.length search_text :: fmtLines 1 elements) ∧
    (fmtLines 1 elements).length = elements.length ∧
    ∀ i : ℕ, (fmtLines 1 elements).get? i
      = (elements.get? i).map (fun e =>
          toString (i + 1) ++ ". " ++ quoteS e.text ++ " at ("
            ++ fmtDot0 e.center_x ++ ", " ++ fmtDot0 e.center_y ++ ")") := by
  refine ⟨by simp [find_text_report, hne], fmtLines_length 1 elements, ?_⟩
  intro i
  rw [fmtLines_get? 1 i elements]
  have h : 1 + i = i + 1 := by omega
  simp [fmtLine, h]

/-- The two located matches of the C9 witness scenario. -/
def reportElems : List Element :=
  [⟨"General", 39, 633/5, 117, 211/5, 195/2, 1477/10, 1⟩,
   ⟨"About", 10, 20, 30, 40, 25, 40, 1⟩]

/-- Witness for C9 on a concrete two-match report. -/
theorem c9_report_format_witness :
    reportElems ≠ [] ∧
    find_text_report reportElems (some "e")
      = String.intercalate "\n"
          (reportHeader reportElems.length (some "e") :: fmtLines 1 reportElems) ∧
    (fmtLines 1 reportElems).length = reportElems.length ∧
    ∀ i : ℕ, (fmtLines 1 reportElems).get? i
      = (reportElems.get? i).map (fun e =>
          toString (i + 1) ++ ". " ++ quoteS e.text ++ " at ("
            ++ fmtDot0 e.center_x ++ ", " ++ fmtDot0 e.center_y ++ ")") := by
  have hne : reportElems ≠ [] := by simp [reportElems]
  exact ⟨hne, c9_report_format reportElems (some "e") hne⟩

/-- Inversion of the `parse_window_data` line worker: a produced window comes
from a line with at least five comma-separated fields whose index and
position/size fields all parsed. -/
theorem lineToWindow_inv {parseI : String → Option ℤ} {parseF : String → Option ℚ}
    {line : String} {w : Window}
    (hsome : lineToWindow parseI parseF line = some w) :
    5 ≤ (pySplit line ", ").length ∧
    parseI ((pySplit line ", ").getD 0 "") = some w.index ∧
    parseF ((pySplit line ", ").getD 1 "") = some w.bounds.x ∧
    parseF ((pySplit line ", ").getD 2 "") = some w.bounds.y ∧
    parseF ((pySplit line ", ").getD 3 "") = some w.bounds.width ∧
    parseF ((pySplit line ", ").getD 4 "") = some w.bounds.height ∧
    w.title = (pySplit line ", ").getD 5 "" := by
  simp only [lineToWindow] at hsome
  split at hsome
  · exact absurd hsome (by simp)
  · split at hsome
    · next hlen => exact absurd hsome (by simp)
    · next hlen =>
      split at hsome
      · next idx px py pw ph hI hx hy hwd hh =>
        obtain rfl : w = ⟨idx, ⟨px, py, pw, ph⟩, (pySplit line ", ").getD 5 ""⟩ :=
          (Option.some.inj hsome).symm
        exact ⟨by omega, hI, hx, hy, hwd, hh, rfl⟩
      · exact absurd hsome (by simp)

/-- C10: `parse_window_data` is total (modelled as a pure function of the raw
output); every returned `Window` comes from a line with at least five
comma-separated fields whose index, x, y, width and height fields parsed
successfully; a line with fewer than five fields, or whose index field fails
to parse, yields no window. -/
theorem c10_parse_window_data_total (parseI : String → Option ℤ)
    (parseF : String → Option ℚ) (output : String) (w : Window)
    (hw : w ∈ parse_window_data parseI parseF output) :
    (∃ line ∈ pySplit (pyStrip output) "\n",
      5 ≤ (pySplit line ", ").length ∧
      parseI ((pySplit line ", ").getD 0 "") = some w.index ∧
      parseF ((pySplit line ", ").getD 1 "") = some w.bounds.x ∧
      parseF ((pySplit line ", ").getD 2 "") = some w.bounds.y ∧
      parseF ((pySplit line ", ").getD 3 "") = some w.bounds.width ∧
      parseF ((pySplit line ", ").getD 4 "") = some w.bounds.height ∧
      w.title = (pySplit line ", ").getD 5 "") ∧
    (∀ line : String, (pySplit line ", ").length < 5 →
      lineToWindow parseI parseF line = none) := by
  constructor
  · obtain ⟨line, hline, hsome⟩ := List.mem_filterMap.mp hw
    exact ⟨line, hline, lineToWindow_inv hsome⟩
  · intro line hlen
    by_cases hb : (pyStrip line).data = []
    · simp [lineToWindow, hb]
    · simp [lineToWindow, hb, hlen]

/-- Demo integer parser (finite table) for the C10 witness. -/
def demoParseI (s : String) : Option ℤ :=
  if s = "1" then some 1 else none

/-- Demo float parser (finite table) for the C10 witness. -/
def demoParseF (s : String) : Option ℚ :=
  if s = "0" then some 0
  else if s = "390" then some 390
  else if s = "844" then some 844
  else none

/-- AppleScript output for the C10 witness: one good line, one malformed line,
one line with too few fields. -/
def demoOutput : String :=
  "1, 0, 0, 390, 844, iPhone 15\nGarbage\n2, 5"

/-- Witness for C10 on the demo output: the good line's window is returned and
satisfies the parsed-fields characterization. -/
theorem c10_parse_window_data_total_witness :
    (⟨1, ⟨0, 0, 390, 844⟩, "iPhone 15"⟩ : Window) ∈
      parse_window_data demoParseI demoParseF demoOutput ∧
    (∃ line ∈ pySplit (pyStrip demoOutput) "\n",
      5 ≤ (pySplit line ", ").length ∧
      demoParseI ((pySplit line ", ").getD 0 "")
        = some (⟨1, ⟨0, 0, 390, 844⟩, "iPhone 15"⟩ : Window).index ∧
      demoParseF ((pySplit line ", ").getD 1 "")
        = some (⟨1, ⟨0, 0, 390, 844⟩, "iPhone 15"⟩ : Window).bounds.x ∧
      demoParseF ((pySplit line ", ").getD 2 "")
        = some (⟨1, ⟨0, 0, 390, 844⟩, "iPhone 15"⟩ : Window).bounds.y ∧
      demoParseF ((pySplit line ", ").getD 3 "")
        = some (⟨1, ⟨0, 0, 390, 844⟩, "iPhone 15"⟩ : Window).bounds.width ∧
      demoParseF ((pySplit line ", ").getD 4 "")
        = some (⟨1, ⟨0, 0, 390, 844⟩, "iPhone 15"⟩ : Window).bounds.height ∧
      (⟨1, ⟨0, 0, 390, 844⟩, "iPhone 15"⟩ : Window).title
        = (pySplit line ", ").getD 5 "") := by
  have hconc : parse_window_data demoParseI demoParseF demoOutput
      = [⟨1, ⟨0, 0, 390, 844⟩, "iPhone 15"⟩] := rfl
  have hw : (⟨1, ⟨0, 0, 390, 844⟩, "iPhone 15"⟩ : Window) ∈
      parse_window_data demoParseI demoParseF demoOutput := by
    rw [hconc]; exact List.mem_singleton.mpr rfl
  exact ⟨hw, (c10_parse_window_data_total demoParseI demoParseF demoOutput _ hw).1⟩

end IosInteract
